import Mathlib

/-!
Shallow embedding of `src/app/app.py` (the Finance API demo service):
the secret-resolution logic (`SecretManager`), the database connection
pool lifecycle (`get_db_connection`, `refresh_db_pool`) and the HTTP
endpoint handlers, together with theorems checking the specification
claims against this embedding.

Modelling conventions:
- The process environment is a partial map `Env`; `os.getenv(k, d)` is
  `getenv env k d`, `os.getenv(k)` is `env k`.
- Python exceptions are values of `PyExn`; fallible code returns
  `Except PyExn _`.  `psycopg2.ProgrammingError` is distinguished from
  all other exceptions because `list_accounts` catches it specially.
- External effects (the filesystem, AWS, Vault, the database driver)
  are oracles passed as explicit arguments; each oracle value is the
  outcome of the corresponding single blocking third-party call.
- The Prometheus counter `SECRET_REFRESH_COUNT` is tracked as the list
  of `(source_label, status_label)` increment events emitted, in order.
  The other counters are not tracked (no claim mentions them).
- JSON objects read from secret payloads are modelled as association
  lists with string values (secret payloads are textual); `int(x)` is
  `pyInt`, which fails like Python `int()` on a non-numeric string.
-/

/-- A Python exception value.  `programmingError` stands for
`psycopg2.ProgrammingError`; every other exception is `otherError`.
Both carry the message, i.e. what `str(e)` returns. -/
inductive PyExn where
  | programmingError (msg : String)
  | otherError (msg : String)
deriving Repr, DecidableEq

deriving instance DecidableEq for Except

/-- Python `str(e)` for an exception value. -/
def PyExn.str : PyExn → String
  | .programmingError m => m
  | .otherError m => m

/-- The credential dictionary returned by every secret backend:
keys `host`, `port`, `database`, `user`, `password`. -/
structure Creds where
  host : String
  port : Int
  database : String
  user : String
  password : String
deriving Repr, DecidableEq

/-- The process environment: `os.environ` as a partial map. -/
abbrev Env : Type := String → Option String

/-- `os.getenv(key, dflt)`. -/
def getenv (env : Env) (key dflt : String) : String :=
  (env key).getD dflt

/-- Python `s.strip()`: drop the whitespace at both ends. -/
def pyStrip (s : String) : String :=
  (((s.data.dropWhile Char.isWhitespace).reverse.dropWhile
      Char.isWhitespace).reverse).asString

/-- Python `s.lower()`. -/
def pyLower (s : String) : String :=
  (s.data.map Char.toLower).asString

/-- The value of an unsigned decimal digit run, `none` on any
non-digit character. -/
def digitsVal : List Char → Nat → Option Nat
  | [], acc => some acc
  | c :: rest, acc =>
      if c.isDigit then digitsVal rest (acc * 10 + (c.toNat - 48))
      else none

/-- Parse an optionally signed, non-empty decimal digit run. -/
def parseSignedInt : List Char → Option Int
  | [] => none
  | '-' :: rest =>
      match rest with
      | [] => none
      | _ => (digitsVal rest 0).map (fun n => -(n : Int))
  | '+' :: rest =>
      match rest with
      | [] => none
      | _ => (digitsVal rest 0).map Int.ofNat
  | cs => (digitsVal cs 0).map Int.ofNat

/-- Python `int(s)` on a string: strips surrounding whitespace and
parses an optionally signed decimal integer, raising `ValueError`
otherwise. -/
def pyInt (s : String) : Except PyExn Int :=
  match parseSignedInt (pyStrip s).data with
  | some n => Except.ok n
  | none => Except.error (PyExn.otherError
      ("invalid literal for int() with base 10: " ++ s))

/-- A JSON object from a secret payload, as an association list of
string keys to string values. -/
abbrev JsonObj : Type := List (String × String)

/-- Python `data.get(key, dflt)` on a `JsonObj`. -/
def jget (data : JsonObj) (key dflt : String) : String :=
  (List.lookup key data).getD dflt

/-- The `SECRET_REFRESH_COUNT.labels(source, status).inc()` events
emitted by a call, in order, as `(source_label, status_label)` pairs. -/
abbrev MEvents : Type := List (String × String)

/-- The mounted-secrets filesystem seen by the `file` backend.
`contents p = some s` means the file at path `p` exists with raw
content `s`; `none` means opening it raises `FileNotFoundError`.
`jsonDoc p` is the outcome of `json.load` on the opened file at `p`
(an exception if the content is not valid JSON). -/
structure FileSystem where
  contents : String → Option String
  jsonDoc : String → Except PyExn JsonObj

/-- A Vault `generate_credentials` response body
(`response[data][username]`, `response[data][password]`). -/
structure VaultResp where
  username : String
  password : String
deriving Repr, DecidableEq

/-- The outcomes of the third-party secret-backend calls: the AWS
Secrets Manager call (already `json.loads`-parsed), the SSM
`get_parameters_by_path` call (as the derived `params` dict), and the
Vault login plus `generate_credentials` call. -/
structure Backends where
  awsSecrets : Except PyExn JsonObj
  awsSsm : Except PyExn JsonObj
  vault : Except PyExn VaultResp

/-- The state of the module-level `SecretManager` instance. -/
structure SecretManager where
  secrets_cache : List (String × String)
  last_refresh : Nat
  refresh_interval : Int
  secret_source : String
deriving Repr, DecidableEq

/-- `SecretManager._get_from_env`: credentials from environment
variables.  The success counter is incremented before the dictionary
is built, so the event is emitted even when `int(DB_PORT)` raises. -/
def SecretManager._get_from_env (env : Env) : MEvents × Except PyExn Creds :=
  ([("env", "success")],
    match pyInt (getenv env "DB_PORT" "5432") with
    | Except.error e => Except.error e
    | Except.ok prt => Except.ok
        { host := getenv env "DB_HOST" "localhost"
          port := prt
          database := getenv env "DB_NAME" "appdb"
          user := getenv env "DB_USERNAME" "postgres"
          password := getenv env "DB_PASSWORD" "" })

/-- `SecretManager._read_file`: read a file and strip its content,
returning the default when the file does not exist. -/
def SecretManager._read_file (fs : FileSystem) (path dflt : String) : String :=
  match fs.contents path with
  | some s => pyStrip s
  | none => dflt

/-- `os.path.join(a, b)` for a relative `b`. -/
def pathJoin (a b : String) : String := a ++ "/" ++ b

/-- The `secrets_path` local of `_get_from_file`. -/
def secretsPath (env : Env) : String :=
  getenv env "SECRETS_PATH" "/mnt/secrets"

/-- The `json_file` local of `_get_from_file`. -/
def jsonFilePath (env : Env) : String :=
  pathJoin (secretsPath env) "db-credentials.json"

/-- `SecretManager._get_from_file`: credentials from a file mount.
If `SECRETS_PATH/db-credentials.json` exists it is parsed as JSON
(with key precedence `dbname` over `database` and `username` over
`user`); otherwise the individual files `host`, `port`, `database`,
`username`, `password` are read, each missing one replaced by its
default. -/
def SecretManager._get_from_file (env : Env) (fs : FileSystem) :
    MEvents × Except PyExn Creds :=
  let secrets_path := secretsPath env
  let json_file := jsonFilePath env
  if (fs.contents json_file).isSome then
    match fs.jsonDoc json_file with
    | Except.error e => ([], Except.error e)
    | Except.ok data =>
        ([("file-json", "success")],
          match pyInt (jget data "port" "5432") with
          | Except.error e => Except.error e
          | Except.ok prt => Except.ok
              { host := jget data "host" "localhost"
                port := prt
                database := (List.lookup "dbname" data).getD
                    ((List.lookup "database" data).getD "appdb")
                user := (List.lookup "username" data).getD
                    ((List.lookup "user" data).getD "postgres")
                password := jget data "password" "" })
  else
    ([("file-individual", "success")],
      match pyInt (SecretManager._read_file fs (pathJoin secrets_path "port") "5432") with
      | Except.error e => Except.error e
      | Except.ok prt => Except.ok
          { host := SecretManager._read_file fs (pathJoin secrets_path "host") "localhost"
            port := prt
            database := SecretManager._read_file fs (pathJoin secrets_path "database") "appdb"
            user := SecretManager._read_file fs (pathJoin secrets_path "username") "postgres"
            password := SecretManager._read_file fs (pathJoin secrets_path "password") "" })

/-- `SecretManager._get_from_aws_secrets_manager`: the secret string
fetched from AWS Secrets Manager and `json.loads`-parsed; the success
counter is incremented after the parse, before the dictionary build. -/
def SecretManager._get_from_aws_secrets_manager (bk : Backends) :
    MEvents × Except PyExn Creds :=
  match bk.awsSecrets with
  | Except.error e => ([], Except.error e)
  | Except.ok data =>
      ([("aws-secrets", "success")],
        match pyInt (jget data "port" "5432") with
        | Except.error e => Except.error e
        | Except.ok prt => Except.ok
            { host := jget data "host" "localhost"
              port := prt
              database := jget data "dbname" "appdb"
              user := jget data "username" "postgres"
              password := jget data "password" "" })

/-- `SecretManager._get_from_aws_parameter_store`: the parameter map
fetched from SSM `get_parameters_by_path`. -/
def SecretManager._get_from_aws_parameter_store (bk : Backends) :
    MEvents × Except PyExn Creds :=
  match bk.awsSsm with
  | Except.error e => ([], Except.error e)
  | Except.ok params =>
      ([("aws-ssm", "success")],
        match pyInt (jget params "port" "5432") with
        | Except.error e => Except.error e
        | Except.ok prt => Except.ok
            { host := jget params "host" "localhost"
              port := prt
              database := jget params "database" "appdb"
              user := jget params "username" "postgres"
              password := jget params "password" "" })

/-- `SecretManager._get_from_vault`: host, port and database come from
environment variables, user and password from the Vault response; the
success counter is incremented before the dictionary build, so the
event is emitted even when `int(DB_PORT)` raises. -/
def SecretManager._get_from_vault (env : Env) (bk : Backends) :
    MEvents × Except PyExn Creds :=
  match bk.vault with
  | Except.error e => ([], Except.error e)
  | Except.ok resp =>
      ([("vault", "success")],
        match pyInt (getenv env "DB_PORT" "5432") with
        | Except.error e => Except.error e
        | Except.ok prt => Except.ok
            { host := getenv env "DB_HOST" "localhost"
              port := prt
              database := getenv env "DB_NAME" "appdb"
              user := resp.username
              password := resp.password })

/-- The `if/elif` dispatch on `secret_source` inside
`get_database_credentials`: every unknown source falls back to the
`env` backend. -/
def selectBackend (source : String) (env : Env) (fs : FileSystem)
    (bk : Backends) : MEvents × Except PyExn Creds :=
  if source = "env" then SecretManager._get_from_env env
  else if source = "file" then SecretManager._get_from_file env fs
  else if source = "aws-secrets" then SecretManager._get_from_aws_secrets_manager bk
  else if source = "aws-ssm" then SecretManager._get_from_aws_parameter_store bk
  else if source = "vault" then SecretManager._get_from_vault env bk
  else SecretManager._get_from_env env

/-- The `try/except` wrapper of `get_database_credentials`: on an
exception, increment the error counter labelled with the configured
source and re-raise the same exception. -/
def postProcess (source : String) (mr : MEvents × Except PyExn Creds) :
    MEvents × Except PyExn Creds :=
  match mr with
  | (ms, Except.ok c) => (ms, Except.ok c)
  | (ms, Except.error e) => (ms ++ [(source, "error")], Except.error e)

/-- `SecretManager.get_database_credentials`: dispatch on
`self.secret_source`, wrapped in the error-counting `try/except`.
Returns the (unmodified) instance state, the counter events and the
result. -/
def SecretManager.get_database_credentials (sm : SecretManager) (env : Env)
    (fs : FileSystem) (bk : Backends) :
    SecretManager × MEvents × Except PyExn Creds :=
  (sm, postProcess sm.secret_source (selectBackend sm.secret_source env fs bk))

/-- The parameters passed to `psycopg2.pool.ThreadedConnectionPool`. -/
structure PoolParams where
  minconn : Nat
  maxconn : Nat
  host : String
  port : Int
  database : String
  user : String
  password : String
  sslmode : String
  connect_timeout : Nat
deriving Repr, DecidableEq

/-- A connection pool object: its construction parameters and whether
`closeall` has been called on it. -/
structure Pool where
  params : PoolParams
  closed : Bool
deriving Repr, DecidableEq

/-- The outcomes of the database-driver calls made by
`get_db_connection`: whether the `ThreadedConnectionPool` constructor
succeeds, and what `pool.getconn()` returns (a connection, identified
by a number, or an exception). -/
structure DbWorld where
  createOk : Except PyExn Unit
  getconn : Except PyExn Nat
deriving Repr, DecidableEq

/-- `get_db_connection`: when the global `db_pool` is `None`, resolve
credentials through the secret manager and build the pool from them
(`minconn=1, maxconn=10, sslmode=require, connect_timeout=10`), then
hand out a connection; exceptions propagate and leave `db_pool` as it
was at the point of the raise.  Returns the new `db_pool` and the
result. -/
def get_db_connection (db_pool : Option Pool) (sm : SecretManager)
    (env : Env) (fs : FileSystem) (bk : Backends) (w : DbWorld) :
    Option Pool × Except PyExn Nat :=
  match db_pool with
  | some p => (some p, w.getconn)
  | none =>
    match (sm.get_database_credentials env fs bk).2.2 with
    | Except.error e => (none, Except.error e)
    | Except.ok creds =>
      match w.createOk with
      | Except.error e => (none, Except.error e)
      | Except.ok _ =>
          (some { params := { minconn := 1, maxconn := 10,
                              host := creds.host, port := creds.port,
                              database := creds.database,
                              user := creds.user,
                              password := creds.password,
                              sslmode := "require",
                              connect_timeout := 10 },
                  closed := false },
            w.getconn)

/-- The pool that `get_db_connection` builds from a credential
dictionary. -/
def poolOfCreds (c : Creds) : Pool :=
  { params := { minconn := 1, maxconn := 10, host := c.host,
                port := c.port, database := c.database, user := c.user,
                password := c.password, sslmode := "require",
                connect_timeout := 10 },
    closed := false }

/-- `refresh_db_pool`: close the pool if there is one and reset the
global to `None`.  Returns the list of pools that were closed and the
new value of `db_pool`. -/
def refresh_db_pool (db_pool : Option Pool) : List Pool × Option Pool :=
  match db_pool with
  | some p => ([{ p with closed := true }], none)
  | none => ([], none)

/-- A JSON value, for response bodies. -/
inductive Json where
  | str : String → Json
  | num : Int → Json
  | arr : List Json → Json
  | obj : List (String × Json) → Json

/-- Field lookup on a JSON object value. -/
def Json.objGet : Json → String → Option Json
  | Json.obj fields, key => List.lookup key fields
  | _, _ => none

/-- An HTTP response: status code and JSON body. -/
structure HttpResponse where
  status : Nat
  body : Json

/-- An account row as returned by the `SELECT` in `list_accounts`.
The `DECIMAL` balance is modelled as an integer number of cents; no
claim depends on the numeric conversion. -/
structure Row where
  id : Int
  name : String
  balance : Int
  created_at : String
deriving Repr, DecidableEq

/-- `GET /health`: always answers 200 with a static body; it performs
no database or secret-backend call (its only read of the secret
manager is the configured source name).  `now` abstracts
`time.time()`. -/
def health (env : Env) (sm : SecretManager) (now : Int) : HttpResponse :=
  { status := 200,
    body := Json.obj
      [("status", Json.str "healthy"),
       ("timestamp", Json.num now),
       ("version", Json.str (getenv env "APP_VERSION" "1.0.0")),
       ("secret_source", Json.str sm.secret_source)] }

/-- `GET /ready`: take a pooled connection, run `SELECT 1` (outcome
`ex`), and answer 200/`connected` on success, 503/`not_ready` with the
exception string otherwise. -/
def ready (db_pool : Option Pool) (sm : SecretManager) (env : Env)
    (fs : FileSystem) (bk : Backends) (w : DbWorld)
    (ex : Except PyExn Unit) : Option Pool × HttpResponse :=
  match get_db_connection db_pool sm env fs bk w with
  | (p, Except.error e) =>
      (p, { status := 503,
            body := Json.obj [("status", Json.str "not_ready"),
                              ("database", Json.str "disconnected"),
                              ("error", Json.str e.str)] })
  | (p, Except.ok _) =>
      match ex with
      | Except.ok _ =>
          (p, { status := 200,
                body := Json.obj [("status", Json.str "ready"),
                                  ("database", Json.str "connected")] })
      | Except.error e =>
          (p, { status := 503,
                body := Json.obj [("status", Json.str "not_ready"),
                                  ("database", Json.str "disconnected"),
                                  ("error", Json.str e.str)] })

/-- The row dictionaries built by `list_accounts`. -/
def rowJson (r : Row) : Json :=
  Json.obj [("id", Json.num r.id), ("name", Json.str r.name),
            ("balance", Json.num r.balance),
            ("created_at", Json.str r.created_at)]

/-- The `except` chain of `list_accounts`: a
`psycopg2.ProgrammingError` is answered 200 with an empty demo body,
every other exception 500 with the exception string. -/
def listAccountsHandle (e : PyExn) : HttpResponse :=
  match e with
  | PyExn.programmingError _ =>
      { status := 200,
        body := Json.obj [("accounts", Json.arr []),
                          ("count", Json.num 0),
                          ("note", Json.str "Demo mode - no data")] }
  | PyExn.otherError m =>
      { status := 500, body := Json.obj [("error", Json.str m)] }

/-- `GET /api/v1/accounts`: take a connection, run the `SELECT`
(outcome `query`), and answer 200 with the rows; exceptions go through
`listAccountsHandle`. -/
def list_accounts (db_pool : Option Pool) (sm : SecretManager)
    (env : Env) (fs : FileSystem) (bk : Backends) (w : DbWorld)
    (query : Except PyExn (List Row)) : Option Pool × HttpResponse :=
  match get_db_connection db_pool sm env fs bk w with
  | (p, Except.error e) => (p, listAccountsHandle e)
  | (p, Except.ok _) =>
      match query with
      | Except.error e => (p, listAccountsHandle e)
      | Except.ok rows =>
          (p, { status := 200,
                body := Json.obj
                  [("accounts", Json.arr (rows.map rowJson)),
                   ("count", Json.num rows.length)] })

/-- `POST /api/v1/accounts`: read `name`/`balance` from the request
JSON (`None` when the request has no JSON body, in which case
`data.get` raises), take a connection, create the table and insert
(outcome `dbExec`, yielding the returned `id` and `created_at`), and
answer 201; every exception is answered 500 with the exception
string. -/
def create_account (reqJson : Option (List (String × Json)))
    (db_pool : Option Pool) (sm : SecretManager) (env : Env)
    (fs : FileSystem) (bk : Backends) (w : DbWorld)
    (dbExec : Except PyExn (Int × String)) : Option Pool × HttpResponse :=
  match reqJson with
  | none =>
      (db_pool,
        { status := 500,
          body := Json.obj [("error",
            Json.str "NoneType object has no attribute get")] })
  | some data =>
    match get_db_connection db_pool sm env fs bk w with
    | (p, Except.error e) =>
        (p, { status := 500, body := Json.obj [("error", Json.str e.str)] })
    | (p, Except.ok _) =>
        match dbExec with
        | Except.error e =>
            (p, { status := 500,
                  body := Json.obj [("error", Json.str e.str)] })
        | Except.ok (rid, ts) =>
            (p, { status := 201,
                  body := Json.obj
                    [("id", Json.num rid),
                     ("name", (List.lookup "name" data).getD
                        (Json.str "Test Account")),
                     ("balance", (List.lookup "balance" data).getD
                        (Json.num 0)),
                     ("created_at", Json.str ts)] })

/-- The `password_preview` expression of `secret_info`: the first
three characters of a non-empty password followed by `***`, and
`EMPTY` for the empty password. -/
def password_preview (p : String) : String :=
  if p ≠ "" then String.take p 3 ++ "***" else "EMPTY"

/-- `GET /api/v1/secret-info`: 403 unless `ENABLE_SECRET_DEBUG`
lower-cases to `true`, in which case credentials are resolved and a
redacted view is returned (password length and preview only).  An
exception from the resolution propagates to the framework, which
answers 500.  The boolean records whether credentials were resolved. -/
def secret_info (env : Env) (sm : SecretManager) (fs : FileSystem)
    (bk : Backends) : Bool × HttpResponse :=
  if pyLower (getenv env "ENABLE_SECRET_DEBUG" "false") ≠ "true" then
    (false, { status := 403,
              body := Json.obj [("error", Json.str "Secret debug disabled")] })
  else
    match (sm.get_database_credentials env fs bk).2.2 with
    | Except.error _ =>
        (true, { status := 500, body := Json.str "Internal Server Error" })
    | Except.ok c =>
        (true, { status := 200,
                 body := Json.obj
                   [("source", Json.str sm.secret_source),
                    ("host", Json.str c.host),
                    ("port", Json.num c.port),
                    ("database", Json.str c.database),
                    ("user", Json.str c.user),
                    ("password_length", Json.num c.password.length),
                    ("password_preview",
                      Json.str (password_preview c.password))] })

/-- `POST /api/v1/refresh-secrets`: 401 unless `API_KEY` is set,
non-empty and matched exactly by the `X-API-Key` header; on success
the pool is refreshed and the response is 200. -/
def refresh_secrets (api_key : Option String) (env : Env)
    (db_pool : Option Pool) : Option Pool × HttpResponse :=
  if env "API_KEY" = none ∨ env "API_KEY" = some "" ∨ api_key ≠ env "API_KEY" then
    (db_pool, { status := 401,
                body := Json.obj [("error", Json.str "Unauthorized")] })
  else
    ((refresh_db_pool db_pool).2,
      { status := 200,
        body := Json.obj
          [("status", Json.str "success"),
           ("message",
             Json.str "Secrets refreshed and connection pool recreated")] })

/-! ## Concrete fixtures used by the witnesses -/

/-- An empty process environment (every variable unset). -/
def env0 : Env := fun _ => none

/-- A filesystem with no mounted secret files. -/
def fs0 : FileSystem :=
  { contents := fun _ => none,
    jsonDoc := fun _ => Except.error (PyExn.otherError "no such file") }

/-- Backends whose external calls all fail. -/
def bk0 : Backends :=
  { awsSecrets := Except.error (PyExn.otherError "aws down"),
    awsSsm := Except.error (PyExn.otherError "ssm down"),
    vault := Except.error (PyExn.otherError "vault down") }

/-- A secret manager configured with the default `env` source. -/
def sm_env : SecretManager :=
  { secrets_cache := [], last_refresh := 0, refresh_interval := 300,
    secret_source := "env" }

/-- A secret manager configured for AWS Secrets Manager. -/
def sm_aws : SecretManager := { sm_env with secret_source := "aws-secrets" }

/-- A secret manager configured with an unknown source string. -/
def sm_bogus : SecretManager := { sm_env with secret_source := "bogus" }

/-- The credentials the `env` backend yields under `env0`. -/
def creds0 : Creds :=
  { host := "localhost", port := 5432, database := "appdb",
    user := "postgres", password := "" }

/-- A database world where pool creation and `getconn` succeed. -/
def w0 : DbWorld := { createOk := Except.ok (), getconn := Except.ok 1 }

example :
    (SecretManager._get_from_env env0).2 = Except.ok creds0 := by
  rfl

/-! ## Helper lemmas -/

/-- The error-counting wrapper never changes the returned value or
exception. -/
theorem postProcess_snd (s : String) (mr : MEvents × Except PyExn Creds) :
    (postProcess s mr).2 = mr.2 := by
  rcases mr with ⟨ms, r⟩
  cases r <;> rfl

/-- A string is empty exactly when its length is zero. -/
theorem string_eq_empty_iff_length (s : String) : s = "" ↔ s.length = 0 := by
  constructor
  · rintro rfl; rfl
  · intro h
    cases s with
    | mk data =>
      cases data with
      | nil => rfl
      | cons c cs => simp [String.length] at h

/-! ## Claim theorems -/

/-- Claim C2: `get_database_credentials` neither reads nor writes
`secrets_cache`, `last_refresh` or `refresh_interval`: replacing those
fields by arbitrary values changes neither the counter events nor the
returned credentials, and the instance state after the call is the
instance state before it (the TTL counter is never consulted). -/
theorem get_database_credentials_frame (sm : SecretManager) (env : Env)
    (fs : FileSystem) (bk : Backends) (cache : List (String × String))
    (lr : Nat) (ri : Int) :
    (SecretManager.get_database_credentials
        { sm with secrets_cache := cache, last_refresh := lr,
                  refresh_interval := ri } env fs bk).1 =
      { sm with secrets_cache := cache, last_refresh := lr,
                refresh_interval := ri }
    ∧ (SecretManager.get_database_credentials
        { sm with secrets_cache := cache, last_refresh := lr,
                  refresh_interval := ri } env fs bk).2 =
      (SecretManager.get_database_credentials sm env fs bk).2 :=
  ⟨rfl, rfl⟩

/-- Claim C4: when the backend selected for the configured source
raises, `get_database_credentials` emits exactly the events of that
single backend attempt followed by one error increment labelled with
that source, and re-raises the same exception — no retry and no
fallback backend. -/
theorem get_database_credentials_error_path (sm : SecretManager)
    (env : Env) (fs : FileSystem) (bk : Backends) (ms : MEvents)
    (e : PyExn)
    (h : selectBackend sm.secret_source env fs bk = (ms, Except.error e)) :
    sm.get_database_credentials env fs bk =
      (sm, ms ++ [(sm.secret_source, "error")], Except.error e) := by
  simp [SecretManager.get_database_credentials, h, postProcess]

/-- Witness for C4: with `SECRET_SOURCE=aws-secrets` and a failing AWS
call, the call re-raises the AWS exception and counts one error for
`aws-secrets`. -/
theorem get_database_credentials_error_path_witness :
    sm_aws.get_database_credentials env0 fs0 bk0 =
      (sm_aws, [("aws-secrets", "error")],
        Except.error (PyExn.otherError "aws down")) :=
  get_database_credentials_error_path sm_aws env0 fs0 bk0 []
    (PyExn.otherError "aws down") (by decide)

/-- Claim C5: `get_database_credentials` dispatches purely on the
`secret_source` string — each of the five known values selects exactly
its backend, and any other value yields the same result as
`_get_from_env`. -/
theorem get_database_credentials_dispatch (sm : SecretManager)
    (env : Env) (fs : FileSystem) (bk : Backends) :
    (sm.secret_source = "env" →
      (sm.get_database_credentials env fs bk).2.2 =
        (SecretManager._get_from_env env).2)
    ∧ (sm.secret_source = "file" →
      (sm.get_database_credentials env fs bk).2.2 =
        (SecretManager._get_from_file env fs).2)
    ∧ (sm.secret_source = "aws-secrets" →
      (sm.get_database_credentials env fs bk).2.2 =
        (SecretManager._get_from_aws_secrets_manager bk).2)
    ∧ (sm.secret_source = "aws-ssm" →
      (sm.get_database_credentials env fs bk).2.2 =
        (SecretManager._get_from_aws_parameter_store bk).2)
    ∧ (sm.secret_source = "vault" →
      (sm.get_database_credentials env fs bk).2.2 =
        (SecretManager._get_from_vault env bk).2)
    ∧ (sm.secret_source ∉
        (["env", "file", "aws-secrets", "aws-ssm", "vault"] : List String) →
      (sm.get_database_credentials env fs bk).2.2 =
        (SecretManager._get_from_env env).2) := by
  refine ⟨?_, ?_, ?_, ?_, ?_, ?_⟩ <;> intro h
  · simp [SecretManager.get_database_credentials, postProcess_snd,
      selectBackend, h]
  · simp [SecretManager.get_database_credentials, postProcess_snd,
      selectBackend, h]
  · simp [SecretManager.get_database_credentials, postProcess_snd,
      selectBackend, h]
  · simp [SecretManager.get_database_credentials, postProcess_snd,
      selectBackend, h]
  · simp [SecretManager.get_database_credentials, postProcess_snd,
      selectBackend, h]
  · simp only [List.mem_cons, List.not_mem_nil, or_false, not_or] at h
    obtain ⟨h1, h2, h3, h4, h5⟩ := h
    simp [SecretManager.get_database_credentials, postProcess_snd,
      selectBackend, h1, h2, h3, h4, h5]

/-- Witness for C5: the unknown source `bogus` yields the `env`
backend result. -/
theorem get_database_credentials_dispatch_witness :
    (sm_bogus.get_database_credentials env0 fs0 bk0).2.2 =
      (SecretManager._get_from_env env0).2 :=
  (get_database_credentials_dispatch sm_bogus env0 fs0 bk0).2.2.2.2.2
    (by decide)

/-- Claim C1: on a successful first call of `get_db_connection` (the
global pool is `None`), the pool is constructed exactly from the
credential dictionary the secret manager returned: its `host`, `port`,
`database`, `user` and `password` parameters equal the corresponding
fields of that dictionary. -/
theorem get_db_connection_first_call (sm : SecretManager) (env : Env)
    (fs : FileSystem) (bk : Backends) (w : DbWorld) (c : Creds) (n : Nat)
    (hc : (sm.get_database_credentials env fs bk).2.2 = Except.ok c)
    (hcr : w.createOk = Except.ok ())
    (hg : w.getconn = Except.ok n) :
    get_db_connection none sm env fs bk w =
      (some (poolOfCreds c), Except.ok n)
    ∧ (poolOfCreds c).params.host = c.host
    ∧ (poolOfCreds c).params.port = c.port
    ∧ (poolOfCreds c).params.database = c.database
    ∧ (poolOfCreds c).params.user = c.user
    ∧ (poolOfCreds c).params.password = c.password := by
  refine ⟨?_, rfl, rfl, rfl, rfl, rfl⟩
  simp [get_db_connection, hc, hcr, hg, poolOfCreds]

/-- Witness for C1: under an empty environment the `env` backend
defaults populate the pool parameters. -/
theorem get_db_connection_first_call_witness :
    get_db_connection none sm_env env0 fs0 bk0 w0 =
      (some (poolOfCreds creds0), Except.ok 1) :=
  (get_db_connection_first_call sm_env env0 fs0 bk0 w0 creds0 1
    (by decide) rfl rfl).1

/-- Claim C6: `refresh_db_pool` always leaves the global `db_pool` at
`None`, closing the previous pool when one existed, so that the next
successful `get_db_connection` re-resolves credentials and builds a
new pool from them. -/
theorem refresh_db_pool_clears (db_pool : Option Pool) :
    (refresh_db_pool db_pool).2 = none
    ∧ (∀ p, db_pool = some p →
        (refresh_db_pool db_pool).1 = [{ p with closed := true }])
    ∧ (∀ (sm : SecretManager) (env : Env) (fs : FileSystem)
        (bk : Backends) (w : DbWorld) (c : Creds) (n : Nat),
        (sm.get_database_credentials env fs bk).2.2 = Except.ok c →
        w.createOk = Except.ok () → w.getconn = Except.ok n →
        get_db_connection (refresh_db_pool db_pool).2 sm env fs bk w =
          (some (poolOfCreds c), Except.ok n)) := by
  refine ⟨?_, ?_, ?_⟩
  · cases db_pool <;> rfl
  · rintro p rfl; rfl
  · intro sm env fs bk w c n hc hcr hg
    have h2 : (refresh_db_pool db_pool).2 = none := by cases db_pool <;> rfl
    rw [h2]
    simp [get_db_connection, hc, hcr, hg, poolOfCreds]

/-- Witness for C6: refreshing an existing pool closes it, resets the
global to `None`, and the next call rebuilds from fresh credentials. -/
theorem refresh_db_pool_clears_witness :
    (refresh_db_pool (some (poolOfCreds creds0))).2 = none
    ∧ (refresh_db_pool (some (poolOfCreds creds0))).1 =
        [{ poolOfCreds creds0 with closed := true }]
    ∧ get_db_connection (refresh_db_pool (some (poolOfCreds creds0))).2
        sm_env env0 fs0 bk0 w0 = (some (poolOfCreds creds0), Except.ok 1) :=
  ⟨(refresh_db_pool_clears (some (poolOfCreds creds0))).1,
   (refresh_db_pool_clears (some (poolOfCreds creds0))).2.1
     (poolOfCreds creds0) rfl,
   (refresh_db_pool_clears (some (poolOfCreds creds0))).2.2
     sm_env env0 fs0 bk0 w0 creds0 1 (by decide) rfl rfl⟩

/-- Claim C7: the `file` backend prefers
`SECRETS_PATH/db-credentials.json` when it exists — taking `dbname`
over `database` and `username` over `user` — and otherwise reads the
individual files `host`, `port`, `database`, `username`, `password`,
replacing each missing one by its default
(`localhost`, `5432`, `appdb`, `postgres`, the empty string). -/
theorem file_backend_shape (env : Env) (fs : FileSystem) :
    (∀ (s : String) (data : JsonObj) (prt : Int),
      fs.contents (jsonFilePath env) = some s →
      fs.jsonDoc (jsonFilePath env) = Except.ok data →
      pyInt (jget data "port" "5432") = Except.ok prt →
      ∃ c, (SecretManager._get_from_file env fs).2 = Except.ok c
        ∧ c.host = jget data "host" "localhost"
        ∧ c.port = prt
        ∧ c.password = jget data "password" ""
        ∧ (∀ d, List.lookup "dbname" data = some d → c.database = d)
        ∧ (List.lookup "dbname" data = none →
            c.database = (List.lookup "database" data).getD "appdb")
        ∧ (∀ u, List.lookup "username" data = some u → c.user = u)
        ∧ (List.lookup "username" data = none →
            c.user = (List.lookup "user" data).getD "postgres"))
    ∧ (∀ prt : Int,
      fs.contents (jsonFilePath env) = none →
      pyInt (SecretManager._read_file fs
        (pathJoin (secretsPath env) "port") "5432") = Except.ok prt →
      ∃ c, (SecretManager._get_from_file env fs).2 = Except.ok c
        ∧ c.host = SecretManager._read_file fs
            (pathJoin (secretsPath env) "host") "localhost"
        ∧ c.port = prt
        ∧ c.database = SecretManager._read_file fs
            (pathJoin (secretsPath env) "database") "appdb"
        ∧ c.user = SecretManager._read_file fs
            (pathJoin (secretsPath env) "username") "postgres"
        ∧ c.password = SecretManager._read_file fs
            (pathJoin (secretsPath env) "password") ""
        ∧ (fs.contents (pathJoin (secretsPath env) "host") = none →
            c.host = "localhost")
        ∧ (fs.contents (pathJoin (secretsPath env) "port") = none →
            c.port = 5432)
        ∧ (fs.contents (pathJoin (secretsPath env) "database") = none →
            c.database = "appdb")
        ∧ (fs.contents (pathJoin (secretsPath env) "username") = none →
            c.user = "postgres")
        ∧ (fs.contents (pathJoin (secretsPath env) "password") = none →
            c.password = "")) := by
  constructor
  · intro s data prt h1 h2 h3
    refine ⟨{ host := jget data "host" "localhost", port := prt,
              database := (List.lookup "dbname" data).getD
                  ((List.lookup "database" data).getD "appdb"),
              user := (List.lookup "username" data).getD
                  ((List.lookup "user" data).getD "postgres"),
              password := jget data "password" "" },
            ?_, rfl, rfl, rfl, ?_, ?_, ?_, ?_⟩
    · simp [SecretManager._get_from_file, h1, h2, h3]
    · intro d hd; simp [hd]
    · intro hd; simp [hd]
    · intro u hu; simp [hu]
    · intro hu; simp [hu]
  · intro prt h1 h2
    refine ⟨{ host := SecretManager._read_file fs
                  (pathJoin (secretsPath env) "host") "localhost",
              port := prt,
              database := SecretManager._read_file fs
                  (pathJoin (secretsPath env) "database") "appdb",
              user := SecretManager._read_file fs
                  (pathJoin (secretsPath env) "username") "postgres",
              password := SecretManager._read_file fs
                  (pathJoin (secretsPath env) "password") "" },
            ?_, rfl, rfl, rfl, rfl, rfl, ?_, ?_, ?_, ?_, ?_⟩
    · simp [SecretManager._get_from_file, h1, h2]
    · intro hh; simp [SecretManager._read_file, hh]
    · intro hp
      rw [SecretManager._read_file, hp] at h2
      have : pyInt "5432" = Except.ok 5432 := by decide
      rw [this] at h2
      exact (Except.ok.injEq _ _).mp h2.symm
    · intro hd; simp [SecretManager._read_file, hd]
    · intro hu; simp [SecretManager._read_file, hu]
    · intro hp; simp [SecretManager._read_file, hp]

/-- A parsed `db-credentials.json` exercising both precedence pairs. -/
def dataJson : JsonObj :=
  [("host", "db.internal"), ("port", "6000"), ("dbname", "payments"),
   ("database", "shadow"), ("username", "svc"), ("user", "shadow-user"),
   ("password", "pw")]

/-- A filesystem mounting that JSON document at the default path. -/
def fs_json : FileSystem :=
  { contents := fun p =>
      if p = "/mnt/secrets/db-credentials.json" then some "raw" else none,
    jsonDoc := fun p =>
      if p = "/mnt/secrets/db-credentials.json" then Except.ok dataJson
      else Except.error (PyExn.otherError "no such file") }

/-- Witness for C7: with both `dbname`/`database` and
`username`/`user` present, the `dbname` and `username` values win. -/
theorem file_backend_shape_witness :
    (SecretManager._get_from_file env0 fs_json).2 = Except.ok
      { host := "db.internal", port := 6000, database := "payments",
        user := "svc", password := "pw" } := by
  obtain ⟨c, hres, hhost, hport, hpw, hdbs, _, hus, _⟩ :=
    (file_backend_shape env0 fs_json).1 "raw" dataJson 6000
      (by decide) (by decide) (by decide)
  have h1 : c.host = "db.internal" := hhost.trans (by decide)
  have h3 : c.database = "payments" := hdbs "payments" (by decide)
  have h4 : c.user = "svc" := hus "svc" (by decide)
  have h5 : c.password = "pw" := hpw.trans (by decide)
  cases c
  subst h1; subst h3; subst h4; subst h5; subst hport
  exact hres

/-- Counterexample to C3 as stated: in `GET /api/v1/accounts` a
`psycopg2.ProgrammingError` raised by the database is answered with
HTTP 200 (the demo-mode body), not 500 or 503, and the body carries no
exception string. -/
theorem list_accounts_programming_error_is_200 :
    (list_accounts none sm_env env0 fs0 bk0 w0
        (Except.error (PyExn.programmingError
          "relation accounts does not exist"))).2.status = 200
    ∧ ¬ ((list_accounts none sm_env env0 fs0 bk0 w0
          (Except.error (PyExn.programmingError
            "relation accounts does not exist"))).2.status = 500
        ∨ (list_accounts none sm_env env0 fs0 bk0 w0
            (Except.error (PyExn.programmingError
              "relation accounts does not exist"))).2.status = 503) := by
  decide

/-- Claim C3 (amended): database and secret-backend exceptions are
answered 503 by `GET /ready` and 500 by `POST /api/v1/accounts`, in
both cases with the exception string in the JSON body, and likewise
500 by `GET /api/v1/accounts` — except that there a
`psycopg2.ProgrammingError` is answered 200 with the empty demo body
instead. -/
theorem endpoint_error_statuses (db_pool : Option Pool)
    (sm : SecretManager) (env : Env) (fs : FileSystem) (bk : Backends)
    (w : DbWorld) (p : Option Pool) (e : PyExn) :
    (get_db_connection db_pool sm env fs bk w = (p, Except.error e) →
      (ready db_pool sm env fs bk w (Except.ok ())).2.status = 503
      ∧ (ready db_pool sm env fs bk w (Except.ok ())).2.body.objGet
          "error" = some (Json.str e.str))
    ∧ (∀ n, get_db_connection db_pool sm env fs bk w = (p, Except.ok n) →
      (ready db_pool sm env fs bk w (Except.error e)).2.status = 503
      ∧ (ready db_pool sm env fs bk w (Except.error e)).2.body.objGet
          "error" = some (Json.str e.str))
    ∧ (∀ data dbExec,
        get_db_connection db_pool sm env fs bk w = (p, Except.error e) →
      (create_account (some data) db_pool sm env fs bk w dbExec).2.status
          = 500
      ∧ (create_account (some data) db_pool sm env fs bk w
            dbExec).2.body.objGet "error" = some (Json.str e.str))
    ∧ (∀ data n,
        get_db_connection db_pool sm env fs bk w = (p, Except.ok n) →
      (create_account (some data) db_pool sm env fs bk w
          (Except.error e)).2.status = 500
      ∧ (create_account (some data) db_pool sm env fs bk w
          (Except.error e)).2.body.objGet "error" = some (Json.str e.str))
    ∧ (∀ query m, e = PyExn.otherError m →
        get_db_connection db_pool sm env fs bk w = (p, Except.error e) →
      (list_accounts db_pool sm env fs bk w query).2.status = 500
      ∧ (list_accounts db_pool sm env fs bk w query).2.body.objGet
          "error" = some (Json.str m))
    ∧ (∀ n m, get_db_connection db_pool sm env fs bk w = (p, Except.ok n) →
      (list_accounts db_pool sm env fs bk w
          (Except.error (PyExn.otherError m))).2.status = 500
      ∧ (list_accounts db_pool sm env fs bk w
          (Except.error (PyExn.otherError m))).2.body.objGet "error"
          = some (Json.str m))
    ∧ (∀ query m, e = PyExn.programmingError m →
        get_db_connection db_pool sm env fs bk w = (p, Except.error e) →
      (list_accounts db_pool sm env fs bk w query).2.status = 200)
    ∧ (∀ n m, get_db_connection db_pool sm env fs bk w = (p, Except.ok n) →
      (list_accounts db_pool sm env fs bk w
          (Except.error (PyExn.programmingError m))).2.status = 200
      ∧ (list_accounts db_pool sm env fs bk w
          (Except.error (PyExn.programmingError m))).2.body.objGet "note"
          = some (Json.str "Demo mode - no data")) := by
  refine ⟨?_, ?_, ?_, ?_, ?_, ?_, ?_, ?_⟩
  · intro h
    simp [ready, h, PyExn.str, Json.objGet, List.lookup]
  · intro n h
    simp [ready, h, PyExn.str, Json.objGet, List.lookup]
  · intro data dbExec h
    simp [create_account, h, PyExn.str, Json.objGet, List.lookup]
  · intro data n h
    simp [create_account, h, PyExn.str, Json.objGet, List.lookup]
  · rintro query m rfl h
    simp [list_accounts, h, listAccountsHandle, Json.objGet, List.lookup]
  · intro n m h
    simp [list_accounts, h, listAccountsHandle, Json.objGet, List.lookup]
  · rintro query m rfl h
    simp [list_accounts, h, listAccountsHandle]
  · intro n m h
    simp [list_accounts, h, listAccountsHandle, Json.objGet, List.lookup]

/-- Witness for the amended C3: a failing `SELECT 1` turns `/ready`
into a 503. -/
theorem endpoint_error_statuses_witness :
    (ready none sm_env env0 fs0 bk0 w0
        (Except.error (PyExn.otherError "boom"))).2.status = 503 :=
  ((endpoint_error_statuses none sm_env env0 fs0 bk0 w0
      (some (poolOfCreds creds0)) (PyExn.otherError "boom")).2.1 1
      (by decide)).1

/-- Claim C8: `GET /health` always answers 200 with status `healthy`
(it takes no database or secret-backend input at all), and
`GET /ready` answers 200 with database `connected` exactly when a
pooled connection is obtained and `SELECT 1` succeeds, and 503 with
status `not_ready` otherwise. -/
theorem health_ready_statuses (env : Env) (sm : SecretManager)
    (now : Int) (db_pool : Option Pool) (fs : FileSystem)
    (bk : Backends) (w : DbWorld) (p : Option Pool) :
    (health env sm now).status = 200
    ∧ (health env sm now).body.objGet "status" = some (Json.str "healthy")
    ∧ (∀ n, get_db_connection db_pool sm env fs bk w = (p, Except.ok n) →
        (ready db_pool sm env fs bk w (Except.ok ())).2.status = 200
        ∧ (ready db_pool sm env fs bk w (Except.ok ())).2.body.objGet
            "database" = some (Json.str "connected"))
    ∧ (∀ e, get_db_connection db_pool sm env fs bk w = (p, Except.error e) →
        (ready db_pool sm env fs bk w (Except.ok ())).2.status = 503
        ∧ (ready db_pool sm env fs bk w (Except.ok ())).2.body.objGet
            "status" = some (Json.str "not_ready"))
    ∧ (∀ n e, get_db_connection db_pool sm env fs bk w = (p, Except.ok n) →
        (ready db_pool sm env fs bk w (Except.error e)).2.status = 503
        ∧ (ready db_pool sm env fs bk w (Except.error e)).2.body.objGet
            "status" = some (Json.str "not_ready")) := by
  refine ⟨rfl, by simp [health, Json.objGet, List.lookup], ?_, ?_, ?_⟩
  · intro n h
    simp [ready, h, Json.objGet, List.lookup]
  · intro e h
    simp [ready, h, Json.objGet, List.lookup]
  · intro n e h
    simp [ready, h, Json.objGet, List.lookup]

/-- Witness for C8: with a reachable database, `/ready` answers 200. -/
theorem health_ready_statuses_witness :
    (ready none sm_env env0 fs0 bk0 w0 (Except.ok ())).2.status = 200 :=
  ((health_ready_statuses env0 sm_env 0 none fs0 bk0 w0
      (some (poolOfCreds creds0))).2.2.1 1 (by decide)).1

/-- Claim C9: `POST /api/v1/refresh-secrets` answers 401 and leaves
the global pool untouched whenever `API_KEY` is unset or empty or the
`X-API-Key` header differs from it; in particular with `API_KEY` unset
every request is rejected, whatever header it carries (including
none). -/
theorem refresh_secrets_unauthorized (api_key : Option String)
    (env : Env) (db_pool : Option Pool) :
    ((env "API_KEY" = none ∨ env "API_KEY" = some "" ∨
        api_key ≠ env "API_KEY") →
      (refresh_secrets api_key env db_pool).2.status = 401
      ∧ (refresh_secrets api_key env db_pool).1 = db_pool)
    ∧ (env "API_KEY" = none →
      ∀ k, (refresh_secrets k env db_pool).2.status = 401
        ∧ (refresh_secrets k env db_pool).1 = db_pool) := by
  constructor
  · intro h
    unfold refresh_secrets
    rw [if_pos h]
    exact ⟨rfl, rfl⟩
  · intro h k
    unfold refresh_secrets
    rw [if_pos (Or.inl h)]
    exact ⟨rfl, rfl⟩

/-- Witness for C9: with `API_KEY` unset, a request carrying a header
is rejected and the pool is untouched. -/
theorem refresh_secrets_unauthorized_witness :
    (refresh_secrets (some "key") env0
        (some (poolOfCreds creds0))).2.status = 401
    ∧ (refresh_secrets (some "key") env0
        (some (poolOfCreds creds0))).1 = some (poolOfCreds creds0) :=
  (refresh_secrets_unauthorized (some "key") env0
    (some (poolOfCreds creds0))).1 (Or.inl rfl)

/-- The redacted body `secret_info` answers when credential
resolution succeeds: only length and preview of the password appear. -/
theorem secret_info_ok_body (env : Env) (sm : SecretManager)
    (fs : FileSystem) (bk : Backends) (c : Creds)
    (h1 : pyLower (getenv env "ENABLE_SECRET_DEBUG" "false") = "true")
    (h2 : (sm.get_database_credentials env fs bk).2.2 = Except.ok c) :
    (secret_info env sm fs bk).2.body.objGet "password_length"
        = some (Json.num c.password.length)
    ∧ (secret_info env sm fs bk).2.body.objGet "password_preview"
        = some (Json.str (password_preview c.password)) := by
  unfold secret_info
  rw [if_neg (not_not_intro h1), h2]
  simp [Json.objGet, List.lookup]

/-- Two passwords of the same length and the same first three
characters have the same preview. -/
theorem password_preview_congr (p1 p2 : String)
    (hlen : p1.length = p2.length)
    (htake : String.take p1 3 = String.take p2 3) :
    password_preview p1 = password_preview p2 := by
  by_cases hp : p1 = ""
  · have hp2 : p2 = "" := by
      rw [string_eq_empty_iff_length]
      rw [← hlen]
      rw [string_eq_empty_iff_length] at hp
      exact hp
    rw [hp, hp2]
  · have hp2 : p2 ≠ "" := by
      intro h
      apply hp
      rw [string_eq_empty_iff_length]
      rw [hlen]
      rw [string_eq_empty_iff_length] at h
      exact h
    unfold password_preview
    rw [if_pos hp, if_pos hp2, htake]

/-- Claim C10: `GET /api/v1/secret-info` answers 403 without resolving
any secret unless `ENABLE_SECRET_DEBUG` lower-cases to `true`; when
enabled, the body exposes only the password length and the at-most-3
character preview (`EMPTY` for an empty password), so two credential
sets whose passwords agree in length and first three characters
produce identical password fields. -/
theorem secret_info_redaction (env : Env) (sm : SecretManager)
    (fs : FileSystem) (bk : Backends) :
    (pyLower (getenv env "ENABLE_SECRET_DEBUG" "false") ≠ "true" →
      (secret_info env sm fs bk).2.status = 403
      ∧ (secret_info env sm fs bk).1 = false)
    ∧ (∀ c, pyLower (getenv env "ENABLE_SECRET_DEBUG" "false") = "true" →
        (sm.get_database_credentials env fs bk).2.2 = Except.ok c →
        (secret_info env sm fs bk).2.body.objGet "password_length"
            = some (Json.num c.password.length)
        ∧ (secret_info env sm fs bk).2.body.objGet "password_preview"
            = some (Json.str (password_preview c.password))
        ∧ (c.password ≠ "" →
            password_preview c.password = String.take c.password 3 ++ "***")
        ∧ (c.password = "" → password_preview c.password = "EMPTY"))
    ∧ (∀ (sm2 : SecretManager) (env2 : Env) (fs2 : FileSystem)
        (bk2 : Backends) (c1 c2 : Creds),
        pyLower (getenv env "ENABLE_SECRET_DEBUG" "false") = "true" →
        pyLower (getenv env2 "ENABLE_SECRET_DEBUG" "false") = "true" →
        (sm.get_database_credentials env fs bk).2.2 = Except.ok c1 →
        (sm2.get_database_credentials env2 fs2 bk2).2.2 = Except.ok c2 →
        c1.password.length = c2.password.length →
        String.take c1.password 3 = String.take c2.password 3 →
        (secret_info env sm fs bk).2.body.objGet "password_length"
          = (secret_info env2 sm2 fs2 bk2).2.body.objGet "password_length"
        ∧ (secret_info env sm fs bk).2.body.objGet "password_preview"
          = (secret_info env2 sm2 fs2 bk2).2.body.objGet
              "password_preview") := by
  refine ⟨?_, ?_, ?_⟩
  · intro h
    unfold secret_info
    rw [if_pos h]
    exact ⟨rfl, rfl⟩
  · intro c h1 h2
    obtain ⟨hl, hp⟩ := secret_info_ok_body env sm fs bk c h1 h2
    refine ⟨hl, hp, ?_, ?_⟩
    · intro hne
      unfold password_preview
      rw [if_pos hne]
    · intro he
      unfold password_preview
      rw [if_neg (not_not_intro he)]
  · intro sm2 env2 fs2 bk2 c1 c2 h1 h1b h2 h2b hlen htake
    obtain ⟨hl1, hp1⟩ := secret_info_ok_body env sm fs bk c1 h1 h2
    obtain ⟨hl2, hp2⟩ := secret_info_ok_body env2 sm2 fs2 bk2 c2 h1b h2b
    constructor
    · rw [hl1, hl2, hlen]
    · rw [hp1, hp2, password_preview_congr c1.password c2.password hlen htake]

/-- An environment enabling the secret debug endpoint. -/
def env_dbg : Env := fun k =>
  if k = "ENABLE_SECRET_DEBUG" then some "TRUE" else none

/-- Witness for C10: with debug enabled and the default empty
password, the preview field reads `EMPTY`. -/
theorem secret_info_redaction_witness :
    (secret_info env_dbg sm_env fs0 bk0).2.body.objGet "password_preview"
      = some (Json.str "EMPTY") := by
  obtain ⟨hlen, hprev, hne, hemp⟩ :=
    (secret_info_redaction env_dbg sm_env fs0 bk0).2.1 creds0
      (by decide) (by decide)
  rw [hprev, hemp rfl]
